import Mathlib

/-!
# Verification of the ByteQuest content-verification edge functions

Shallow embedding of the three Deno edge functions of the repository
(`verify-content`, `verify-citations`, `detect-ai`) and proofs of the
specification claims about them.

JavaScript strings are modelled as Lean `String`; `undefined`/missing
JSON fields are modelled as `Option`; JavaScript truthiness on strings
(`""`, `undefined` are falsy) is modelled explicitly.  Network calls and
the platform JSON parser are effects outside the repository's code: they
are modelled as explicit outcome values / oracle parameters, so that the
repository's control flow around them is embedded exactly.
-/

/-! ## String primitives (JavaScript string operations, ASCII-faithful) -/

/-- hay starts with needle: model of the prefix test underlying
JavaScript string operations (first argument is the needle). -/
def listStartsWith : List Char → List Char → Bool
  | [], _ => true
  | _ :: _, [] => false
  | a :: as, b :: bs => a == b && listStartsWith as bs

/-- Model of JavaScript hay.includes(needle): needle occurs as a
contiguous substring of hay. -/
def listIncludes (needle : List Char) : List Char → Bool
  | [] => listStartsWith needle []
  | c :: rest => listStartsWith needle (c :: rest) || listIncludes needle rest

/-- Model of JavaScript hay.includes(needle) on strings. -/
def strIncludes (hay needle : String) : Bool :=
  listIncludes needle.toList hay.toList

/-- Model of JavaScript s.startsWith(p). -/
def strStartsWith (s p : String) : Bool :=
  listStartsWith p.toList s.toList

/-- Model of JavaScript s.toLowerCase() (ASCII case folding). -/
def strToLower (s : String) : String :=
  String.mk (s.toList.map Char.toLower)

/-- Model of JavaScript s.substring(0, n). -/
def strTake (s : String) (n : Nat) : String :=
  String.mk (s.toList.take n)

/-- JavaScript a || b on an optional string: first operand wins when
truthy (present and non-empty), else the default. -/
def jsOrS (a : Option String) (b : String) : String :=
  match a with
  | some s => if s = "" then b else s
  | none => b

/-- JavaScript a || b chaining on two optional strings, keeping the
result optional (a falsy outcome collapses to none). -/
def jsOrOpt (a b : Option String) : Option String :=
  match a with
  | some s => if s = "" then b else some s
  | none => b

/-! ## verify-content: status normalizers
(src/supabase/functions/verify-content/index.ts, lines 204-230) -/

/-- Closed enum of claim verdicts. -/
inductive ClaimStatus where
  | verified
  | questionable
  | false_
  deriving DecidableEq, Repr

/-- Closed enum of citation verdicts. -/
inductive CitationStatus where
  | valid
  | broken
  | fake
  deriving DecidableEq, Repr

/-- normalizeClaimStatus from verify-content/index.ts.  The argument is
the raw upstream status string; none models an undefined field, and the
JavaScript falsy test covers both undefined and the empty string. -/
def normalizeClaimStatus (status : Option String) : ClaimStatus :=
  match status with
  | none => ClaimStatus.questionable
  | some st =>
    if st = "" then ClaimStatus.questionable
    else
      if strIncludes (strToLower st) "true" || strIncludes (strToLower st) "verified" ||
         strIncludes (strToLower st) "accurate" || strIncludes (strToLower st) "correct" then
        ClaimStatus.verified
      else if strIncludes (strToLower st) "false" || strIncludes (strToLower st) "incorrect" ||
              strIncludes (strToLower st) "wrong" || strIncludes (strToLower st) "fake" then
        ClaimStatus.false_
      else
        ClaimStatus.questionable

/-- normalizeCitationStatus from verify-content/index.ts. -/
def normalizeCitationStatus (status : Option String) : CitationStatus :=
  match status with
  | none => CitationStatus.broken
  | some st =>
    if st = "" then CitationStatus.broken
    else
      if strIncludes (strToLower st) "valid" || strIncludes (strToLower st) "exists" ||
         strIncludes (strToLower st) "found" || strIncludes (strToLower st) "working" then
        CitationStatus.valid
      else if strIncludes (strToLower st) "fake" || strIncludes (strToLower st) "fabricated" ||
              strIncludes (strToLower st) "nonexistent" || strIncludes (strToLower st) "false" then
        CitationStatus.fake
      else
        CitationStatus.broken

/-- The positive claim keywords, in source order. -/
def claimPositiveKeywords : List String := ["true", "verified", "accurate", "correct"]

/-- The negative claim keywords, in source order. -/
def claimNegativeKeywords : List String := ["false", "incorrect", "wrong", "fake"]

/-- The positive citation keywords, in source order. -/
def citationValidKeywords : List String := ["valid", "exists", "found", "working"]

/-- The fabrication citation keywords, in source order. -/
def citationFakeKeywords : List String := ["fake", "fabricated", "nonexistent", "false"]

/-- Some keyword of the list occurs as a substring of s. -/
def anyKeyword (s : String) (ks : List String) : Bool :=
  ks.any (fun k => strIncludes s k)

/-! ## verify-content: upstream data model and merge
(src/supabase/functions/verify-content/index.ts, lines 28-187) -/

/-- A raw claim object as received from the factual backend; every field
may be absent (the code reads several alternative key names). -/
structure RawClaim where
  text : Option String
  claim : Option String
  status : Option String
  verdict : Option String
  verification_status : Option String
  note : Option String
  explanation : Option String
  reason : Option String
  suggestedSources : Option (List String)
  deriving DecidableEq, Repr

/-- A raw citation object as received from the factual backend. -/
structure RawCitation where
  source : Option String
  name : Option String
  url : Option String
  status : Option String
  validity : Option String
  reason : Option String
  explanation : Option String
  deriving DecidableEq, Repr

/-- The parsed body of a successful factual-backend response. -/
structure BackendResult where
  trustScore : Option Int
  trust_score : Option Int
  claims : Option (List RawClaim)
  citations : Option (List RawCitation)
  deriving DecidableEq, Repr

/-- One entry of the AI insight's sourceSuggestions list. -/
structure SourceSuggestion where
  claimText : Option String
  suggestedSources : Option (List String)
  deriving DecidableEq, Repr

/-- The parsed AI-insight response. -/
structure AiResult where
  hallucinationRisk : Option String
  hallucinationRiskReason : Option String
  analysisSummary : Option String
  sourceSuggestions : Option (List SourceSuggestion)
  deriving DecidableEq, Repr

/-- Outcome of the factual-backend call (lines 33-53): success with a
parsed body, a non-2xx HTTP response, a network-level failure, or a
body that failed to parse as JSON (the last two are caught by the same
catch block in the source). -/
inductive BackendOutcome where
  | success (result : BackendResult)
  | httpError (status : Nat)
  | fetchError (message : String)
  | bodyParseError (message : String)
  deriving DecidableEq, Repr

/-- backendResult variable after the try/catch: non-null only on success. -/
def backendResultOf : BackendOutcome → Option BackendResult
  | BackendOutcome.success r => some r
  | _ => none

/-- backendError variable after the try/catch. -/
def backendErrorOf : BackendOutcome → Option String
  | BackendOutcome.success _ => none
  | BackendOutcome.httpError status => some ("Backend API error: " ++ toString status)
  | BackendOutcome.fetchError message => some message
  | BackendOutcome.bodyParseError message => some message

/-- A claim of the merged VerificationResult. -/
structure MergedClaim where
  text : String
  status : ClaimStatus
  note : String
  suggestedSources : List String
  deriving DecidableEq, Repr

/-- A citation of the merged VerificationResult. -/
structure MergedCitation where
  source : String
  url : String
  status : CitationStatus
  reason : String
  deriving DecidableEq, Repr

/-- The merged VerificationResult (finalResult in the source). -/
structure FinalResult where
  error : Option String
  trustScore : Int
  claims : List MergedClaim
  citations : List MergedCitation
  hallucinationRisk : String
  hallucinationRiskReason : String
  analysisSummary : String
  source : String
  deriving DecidableEq, Repr

/-- The find predicate of lines 143-147: both the raw claim's text and
the suggestion's claimText must be truthy, and the lowercased
30-character prefix of one must occur in the lowercased other. -/
def suggestionMatches (c : RawClaim) (s : SourceSuggestion) : Bool :=
  match c.text, s.claimText with
  | some t, some ct =>
    t != "" && ct != "" &&
      (strIncludes (strToLower t) (strTake (strToLower ct) 30) ||
       strIncludes (strToLower ct) (strTake (strToLower t) 30))
  | _, _ => false

/-- aiResult?.sourceSuggestions?.find(...) of line 143. -/
def aiFindSuggestion (ai : Option AiResult) (c : RawClaim) : Option SourceSuggestion :=
  ((ai.bind AiResult.sourceSuggestions).getD []).find? (suggestionMatches c)

/-- The claim-mapping function of lines 141-155. -/
def mergeClaim (ai : Option AiResult) (c : RawClaim) : MergedClaim :=
  { text := jsOrS c.text (jsOrS c.claim "")
    status := normalizeClaimStatus (jsOrOpt c.status (jsOrOpt c.verdict c.verification_status))
    note := jsOrS c.note (jsOrS c.explanation (jsOrS c.reason ""))
    suggestedSources :=
      match (aiFindSuggestion ai c).bind SourceSuggestion.suggestedSources with
      | some l => l
      | none => c.suggestedSources.getD [] }

/-- The citation-mapping function of lines 157-162. -/
def mergeCitation (c : RawCitation) : MergedCitation :=
  { source := jsOrS c.source (jsOrS c.name "")
    url := jsOrS c.url "unknown"
    status := normalizeCitationStatus (jsOrOpt c.status c.validity)
    reason := jsOrS c.reason (jsOrS c.explanation "") }

/-- The merge of lines 133-187: backend is the source of truth when it
succeeded, otherwise the ai-only-fallback result is produced. -/
def mergeResults (bo : BackendOutcome) (ai : Option AiResult) : FinalResult :=
  match backendResultOf bo with
  | some backendResult =>
    { error := none
      trustScore := backendResult.trustScore.getD (backendResult.trust_score.getD 50)
      claims := (backendResult.claims.getD []).map (mergeClaim ai)
      citations := (backendResult.citations.getD []).map mergeCitation
      hallucinationRisk := jsOrS (ai.bind AiResult.hallucinationRisk) "Medium"
      hallucinationRiskReason := jsOrS (ai.bind AiResult.hallucinationRiskReason) "Unable to assess"
      analysisSummary := jsOrS (ai.bind AiResult.analysisSummary) ""
      source := "backend+ai" }
  | none =>
    { error := some (jsOrS (backendErrorOf bo) "Backend verification failed")
      trustScore := 0
      claims := []
      citations := []
      hallucinationRisk := jsOrS (ai.bind AiResult.hallucinationRisk) "Unknown"
      hallucinationRiskReason := jsOrS (ai.bind AiResult.hallucinationRiskReason) "Backend verification required"
      analysisSummary := jsOrS (ai.bind AiResult.analysisSummary) "Unable to verify without backend"
      source := "ai-only-fallback" }

/-! ## verify-citations: URL probe
(src/supabase/functions/verify-citations/index.ts, lines 22-66) -/

/-- The JavaScript whitespace class used by regex \s and String.trim
(ECMA-262 WhiteSpace and LineTerminator code points). -/
def jsWhitespace (c : Char) : Bool :=
  c == ' ' || c == '\t' || c == '\n' || c == '\r' || c == '\x0b' || c == '\x0c' ||
  c == '\u00A0' || c == '\uFEFF' || c == '\u1680' ||
  ('\u2000' ≤ c && c ≤ '\u200A') || c == '\u2028' || c == '\u2029' ||
  c == '\u202F' || c == '\u205F' || c == '\u3000'

/-- Strip leading and trailing JavaScript whitespace from a char list. -/
def jsTrimList (l : List Char) : List Char :=
  ((l.dropWhile jsWhitespace).reverse.dropWhile jsWhitespace).reverse

/-- Model of JavaScript s.trim(). -/
def jsTrim (s : String) : String :=
  String.mk (jsTrimList s.toList)

/-- Case-insensitive prefix test (ASCII folding), for the /i regex flags
of the source. -/
def listStartsWithCI : List Char → List Char → Bool
  | [], _ => true
  | _ :: _, [] => false
  | a :: as, b :: bs => a.toLower == b.toLower && listStartsWithCI as bs

/-- The literal pieces of the title / script / style regexes. -/
def titleOpenTag : List Char := "<title".toList

/-- Closing literal of the title regex. -/
def titleCloseTag : List Char := "</title>".toList

/-- Opening literal of the script-stripping regex. -/
def scriptOpenTag : List Char := "<script".toList

/-- Closing literal of the script-stripping regex. -/
def scriptCloseTag : List Char := "</script>".toList

/-- Opening literal of the style-stripping regex. -/
def styleOpenTag : List Char := "<style".toList

/-- Closing literal of the style-stripping regex. -/
def styleCloseTag : List Char := "</style>".toList

/-- One attempt of the title regex at the head of the list:
matches title-open, then a run of non-gt characters and a gt, captures
the following non-empty run of non-lt characters, and requires the
closing tag right after the capture.  The character classes of the
regex admit no backtracking, so this attempt is deterministic. -/
def matchTitleAt (l : List Char) : Option (List Char) :=
  if listStartsWithCI titleOpenTag l then
    let rest := l.drop titleOpenTag.length
    let afterAttrs := rest.dropWhile (fun c => c != '>')
    match afterAttrs with
    | [] => none
    | _ :: afterGt =>
      let cap := afterGt.takeWhile (fun c => c != '<')
      if cap = [] then none
      else if listStartsWithCI titleCloseTag (afterGt.drop cap.length) then some cap
      else none
  else none

/-- Leftmost match of the title regex: try each start position in turn. -/
def findTitle : List Char → Option (List Char)
  | [] => none
  | c :: cs =>
    match matchTitleAt (c :: cs) with
    | some cap => some cap
    | none => findTitle cs

/-- Title extraction of lines 49-50: first title-element match, group
trimmed, undefined when there is no match. -/
def extractTitle (html : String) : Option String :=
  (findTitle html.toList).map (fun cap => jsTrim (String.mk cap))

/-- Remainder of the list after the first case-insensitive occurrence of
closeTag; none when closeTag does not occur (the lazy body of the
block regex reaches exactly to the first closing tag). -/
def findCIEnd (closeTag : List Char) : List Char → Option (List Char)
  | [] => none
  | c :: cs =>
    if listStartsWithCI closeTag (c :: cs) then some ((c :: cs).drop closeTag.length)
    else findCIEnd closeTag cs

/-- One attempt of a block regex (script/style) at the head of the list:
open tag, attribute run and gt, then lazily up to the closing tag;
returns the remainder after the whole block. -/
def tryBlockAt (openTag closeTag : List Char) (l : List Char) : Option (List Char) :=
  if listStartsWithCI openTag l then
    let rest := l.drop openTag.length
    let afterAttrs := rest.dropWhile (fun c => c != '>')
    match afterAttrs with
    | [] => none
    | _ :: afterGt => findCIEnd closeTag afterGt
  else none

/-- Global replacement of whole blocks by the empty string, scanning
left to right and resuming after each removed block.  Fuel-indexed to
make the recursion structural; a matched block always consumes at least
one character, so fuel equal to the list length is always sufficient. -/
def stripBlocksAux (openTag closeTag : List Char) : Nat → List Char → List Char
  | 0, l => l
  | _ + 1, [] => []
  | fuel + 1, c :: cs =>
    match tryBlockAt openTag closeTag (c :: cs) with
    | some rest => stripBlocksAux openTag closeTag fuel rest
    | none => c :: stripBlocksAux openTag closeTag fuel cs

/-- The two block-removal replaces of lines 54-55. -/
def stripBlocks (openTag closeTag : List Char) (l : List Char) : List Char :=
  stripBlocksAux openTag closeTag l.length l

/-- Global replacement of markup tags (lt, a non-empty run of non-gt
characters, gt) by a single space, line 56.  Fuel-indexed as above. -/
def stripTagsAux : Nat → List Char → List Char
  | 0, l => l
  | _ + 1, [] => []
  | fuel + 1, c :: cs =>
    if c == '<' then
      let inner := cs.takeWhile (fun x => x != '>')
      match cs.drop inner.length with
      | [] => c :: stripTagsAux fuel cs
      | _ :: rest =>
        if inner = [] then c :: stripTagsAux fuel cs
        else ' ' :: stripTagsAux fuel rest
    else c :: stripTagsAux fuel cs

/-- Tag removal over the whole list. -/
def stripTags (l : List Char) : List Char :=
  stripTagsAux l.length l

/-- Whitespace-run collapsing of line 57; the flag records whether the
previous character belonged to a whitespace run. -/
def collapseWsAux : Bool → List Char → List Char
  | _, [] => []
  | prevWs, c :: cs =>
    if jsWhitespace c then
      if prevWs then collapseWsAux true cs
      else ' ' :: collapseWsAux true cs
    else c :: collapseWsAux false cs

/-- Preview extraction of lines 52-59: strip script and style blocks,
strip tags, collapse whitespace, trim, truncate to 300 characters. -/
def extractPreview (html : String) : String :=
  let noScript := stripBlocks scriptOpenTag scriptCloseTag html.toList
  let noStyle := stripBlocks styleOpenTag styleCloseTag noScript
  let noTags := stripTags noStyle
  let collapsed := collapseWsAux false noTags
  String.mk ((jsTrimList collapsed).take 300)

/-- The value returned by checkUrl. -/
structure ProbeResult where
  exists_ : Bool
  status : Nat
  title : Option String
  preview : Option String
  deriving DecidableEq, Repr

/-- Outcome of the fetch issued by checkUrl: an HTTP response with a
status code and a body, or a network-level exception (timeout, DNS
failure, connection refused, body-read failure), which the source
catches. -/
inductive NetOutcome where
  | response (status : Nat) (body : String)
  | netError (message : String)
  deriving DecidableEq, Repr

/-- checkUrl of lines 22-66.  The guard of line 24 rejects before any
fetch, so for those urls the result does not depend on net at all; a
response is ok exactly when its status is in 200..299. -/
def checkUrl (url : String) (net : NetOutcome) : ProbeResult :=
  if url == "" || url == "unknown" || !(strStartsWith url "http") then
    { exists_ := false, status := 0, title := none, preview := none }
  else
    match net with
    | NetOutcome.netError _ =>
      { exists_ := false, status := 0, title := none, preview := none }
    | NetOutcome.response status body =>
      if 200 ≤ status ∧ status ≤ 299 then
        { exists_ := true, status := status
          title := extractTitle body, preview := some (extractPreview body) }
      else
        { exists_ := false, status := status, title := none, preview := none }

/-! ## verify-citations: reconciliation
(src/supabase/functions/verify-citations/index.ts, lines 85-116) -/

/-- A citation as received by the re-verifier (already carrying a prior
verdict). -/
structure Citation where
  source : String
  url : String
  status : CitationStatus
  reason : String
  deriving DecidableEq, Repr

/-- A re-verified citation: the spread of the input citation plus the
verified / httpStatus / pageTitle / contentPreview fields. -/
structure VerifiedCitation where
  source : String
  url : String
  status : CitationStatus
  reason : String
  verified : Bool
  httpStatus : Nat
  pageTitle : Option String
  contentPreview : Option String
  deriving DecidableEq, Repr

/-- The updatedStatus / updatedReason computation of lines 89-104. -/
def reconcileStatusReason (citation : Citation) (result : ProbeResult) :
    CitationStatus × String :=
  if result.exists_ then
    if citation.status = CitationStatus.broken then
      (CitationStatus.valid,
        "URL is accessible. Page title: \"" ++ jsOrS result.title "Unknown" ++ "\"")
    else (citation.status, citation.reason)
  else
    if citation.status = CitationStatus.valid then
      (CitationStatus.broken,
        if result.status = 0 then "URL is not accessible or does not exist"
        else "URL returned HTTP " ++ toString result.status)
    else (citation.status, citation.reason)

/-- The object built at lines 106-114. -/
def reconcileCitation (citation : Citation) (result : ProbeResult) : VerifiedCitation :=
  { source := citation.source
    url := citation.url
    status := (reconcileStatusReason citation result).1
    reason := (reconcileStatusReason citation result).2
    verified := true
    httpStatus := result.status
    pageTitle := result.title
    contentPreview := result.preview }

/-- The Citation fields of a re-verified citation (what a second
re-verification round reads back from it). -/
def VerifiedCitation.toCitation (v : VerifiedCitation) : Citation :=
  { source := v.source, url := v.url, status := v.status, reason := v.reason }

/-- The fan-out of lines 85-116: every citation is probed (net gives the
probe outcome of each url during the request) and reconciled. -/
def verifyCitations (citations : List Citation) (net : String → NetOutcome) :
    List VerifiedCitation :=
  citations.map (fun citation => reconcileCitation citation (checkUrl citation.url (net citation.url)))

/-! ## detect-ai: response parsing
(src/supabase/functions/detect-ai/index.ts, lines 93-116) -/

/-- The backquote character (written by code point to keep it out of
the surrounding text). -/
def backquote : Char := '\x60'

/-- The three-backquote fence delimiter of the code-fence regex. -/
def fenceMarker : List Char := [backquote, backquote, backquote]

/-- The optional json tag after the opening fence. -/
def jsonTag : List Char := "json".toList

/-- The lazy body of the fence regex: content up to the first closing
fence, none when no closing fence follows. -/
def takeUntilFence : List Char → Option (List Char)
  | [] => none
  | c :: cs =>
    if listStartsWith fenceMarker (c :: cs) then some []
    else (takeUntilFence cs).map (fun l => c :: l)

/-- One attempt of the fence regex at the head of the list: opening
fence, optional json tag (greedy), a greedy whitespace run, then the
lazy capture up to the closing fence.  Neither the tag nor whitespace
can contain a backquote, so greediness here is deterministic. -/
def tryFenceAt (l : List Char) : Option (List Char) :=
  if listStartsWith fenceMarker l then
    let rest := l.drop fenceMarker.length
    let rest2 := if listStartsWith jsonTag rest then rest.drop jsonTag.length else rest
    let rest3 := rest2.dropWhile jsWhitespace
    takeUntilFence rest3
  else none

/-- Leftmost match of the fence regex of lines 104-105: successive start
positions are tried until one attempt succeeds. -/
def findFence : List Char → Option (List Char)
  | [] => none
  | c :: cs =>
    match tryFenceAt (c :: cs) with
    | some cap => some cap
    | none => findFence cs

/-- jsonStr of line 105: the captured fence body when the content
matches the fence regex, else the whole content, trimmed. -/
def extractJsonStr (content : String) : String :=
  jsTrim
    (match findFence content.toList with
     | some cap => String.mk cap
     | none => content)

/-- One indicator entry of the AI-detection payload. -/
structure DetectIndicator where
  type : String
  description : String
  example_ : Option String
  deriving DecidableEq, Repr

/-- The AI-detection payload returned to the caller. -/
structure AiDetection where
  isAiGenerated : Bool
  confidence : Int
  indicators : List DetectIndicator
  analysis : String
  error : Option String
  deriving DecidableEq, Repr

/-- The parse-with-fallback of lines 102-116.  JSONparse is the
platform JSON parser (a builtin, not repository code), passed as an
oracle: none models a parse exception.  A failure is caught and
replaced by the default neutral payload. -/
def parseDetectAi (content : String) (JSONparse : String → Option AiDetection) :
    AiDetection :=
  match JSONparse (extractJsonStr content) with
  | some result => result
  | none =>
    { isAiGenerated := false
      confidence := 50
      indicators := []
      analysis := "Unable to determine AI authorship"
      error := some "Failed to parse AI analysis" }

/-! ## Helper lemmas about the normalizers -/

/-- A positive claim keyword forces the verified branch. -/
theorem normalizeClaim_pos (st : String)
    (h : anyKeyword (strToLower st) claimPositiveKeywords = true) :
    normalizeClaimStatus (some st) = ClaimStatus.verified := by
  rcases List.any_eq_true.mp h with ⟨k, hk, hinc⟩
  have hst : st ≠ "" := by
    rintro rfl
    fin_cases hk <;> exact absurd hinc (by decide)
  fin_cases hk <;> simp [normalizeClaimStatus, hst, hinc]

/-- With no positive claim keyword, a negative one forces the false branch. -/
theorem normalizeClaim_neg (st : String)
    (hpos : anyKeyword (strToLower st) claimPositiveKeywords = false)
    (hneg : anyKeyword (strToLower st) claimNegativeKeywords = true) :
    normalizeClaimStatus (some st) = ClaimStatus.false_ := by
  simp only [anyKeyword, claimPositiveKeywords, List.any_cons, List.any_nil,
    Bool.or_eq_false_iff] at hpos
  obtain ⟨h1, h2, h3, h4, -⟩ := hpos
  rcases List.any_eq_true.mp hneg with ⟨k, hk, hinc⟩
  have hst : st ≠ "" := by
    rintro rfl
    fin_cases hk <;> exact absurd hinc (by decide)
  fin_cases hk <;> simp [normalizeClaimStatus, hst, h1, h2, h3, h4, hinc]

/-- With no claim keyword at all, the result is questionable. -/
theorem normalizeClaim_default (st : String)
    (hpos : anyKeyword (strToLower st) claimPositiveKeywords = false)
    (hneg : anyKeyword (strToLower st) claimNegativeKeywords = false) :
    normalizeClaimStatus (some st) = ClaimStatus.questionable := by
  simp only [anyKeyword, claimPositiveKeywords, claimNegativeKeywords, List.any_cons,
    List.any_nil, Bool.or_eq_false_iff] at hpos hneg
  obtain ⟨h1, h2, h3, h4, -⟩ := hpos
  obtain ⟨h5, h6, h7, h8, -⟩ := hneg
  by_cases hst : st = ""
  · simp [hst, normalizeClaimStatus]
  · simp [normalizeClaimStatus, hst, h1, h2, h3, h4, h5, h6, h7, h8]

/-- A positive citation keyword forces the valid branch. -/
theorem normalizeCitation_pos (st : String)
    (h : anyKeyword (strToLower st) citationValidKeywords = true) :
    normalizeCitationStatus (some st) = CitationStatus.valid := by
  rcases List.any_eq_true.mp h with ⟨k, hk, hinc⟩
  have hst : st ≠ "" := by
    rintro rfl
    fin_cases hk <;> exact absurd hinc (by decide)
  fin_cases hk <;> simp [normalizeCitationStatus, hst, hinc]

/-- With no positive citation keyword, a fabrication one forces the fake branch. -/
theorem normalizeCitation_fake (st : String)
    (hpos : anyKeyword (strToLower st) citationValidKeywords = false)
    (hneg : anyKeyword (strToLower st) citationFakeKeywords = true) :
    normalizeCitationStatus (some st) = CitationStatus.fake := by
  simp only [anyKeyword, citationValidKeywords, List.any_cons, List.any_nil,
    Bool.or_eq_false_iff] at hpos
  obtain ⟨h1, h2, h3, h4, -⟩ := hpos
  rcases List.any_eq_true.mp hneg with ⟨k, hk, hinc⟩
  have hst : st ≠ "" := by
    rintro rfl
    fin_cases hk <;> exact absurd hinc (by decide)
  fin_cases hk <;> simp [normalizeCitationStatus, hst, h1, h2, h3, h4, hinc]

/-- With no citation keyword at all, the result is broken. -/
theorem normalizeCitation_default (st : String)
    (hpos : anyKeyword (strToLower st) citationValidKeywords = false)
    (hneg : anyKeyword (strToLower st) citationFakeKeywords = false) :
    normalizeCitationStatus (some st) = CitationStatus.broken := by
  simp only [anyKeyword, citationValidKeywords, citationFakeKeywords, List.any_cons,
    List.any_nil, Bool.or_eq_false_iff] at hpos hneg
  obtain ⟨h1, h2, h3, h4, -⟩ := hpos
  obtain ⟨h5, h6, h7, h8, -⟩ := hneg
  by_cases hst : st = ""
  · simp [hst, normalizeCitationStatus]
  · simp [normalizeCitationStatus, hst, h1, h2, h3, h4, h5, h6, h7, h8]

/-! ## Claim C2 -/

/-- C2: normalizeClaimStatus and normalizeCitationStatus are total
functions onto the closed three-value enums, deciding by
case-insensitive substring matching in a fixed priority order: positive
keywords first (verified / valid), else negative or fabrication
keywords (false / fake), else the default (questionable / broken);
empty or missing input yields questionable and broken respectively. -/
theorem claim_C2_normalizers_total_prioritized :
    normalizeClaimStatus none = ClaimStatus.questionable ∧
    normalizeClaimStatus (some "") = ClaimStatus.questionable ∧
    normalizeCitationStatus none = CitationStatus.broken ∧
    normalizeCitationStatus (some "") = CitationStatus.broken ∧
    ∀ st : String,
      (anyKeyword (strToLower st) claimPositiveKeywords = true →
        normalizeClaimStatus (some st) = ClaimStatus.verified) ∧
      (anyKeyword (strToLower st) claimPositiveKeywords = false →
        anyKeyword (strToLower st) claimNegativeKeywords = true →
        normalizeClaimStatus (some st) = ClaimStatus.false_) ∧
      (anyKeyword (strToLower st) claimPositiveKeywords = false →
        anyKeyword (strToLower st) claimNegativeKeywords = false →
        normalizeClaimStatus (some st) = ClaimStatus.questionable) ∧
      (anyKeyword (strToLower st) citationValidKeywords = true →
        normalizeCitationStatus (some st) = CitationStatus.valid) ∧
      (anyKeyword (strToLower st) citationValidKeywords = false →
        anyKeyword (strToLower st) citationFakeKeywords = true →
        normalizeCitationStatus (some st) = CitationStatus.fake) ∧
      (anyKeyword (strToLower st) citationValidKeywords = false →
        anyKeyword (strToLower st) citationFakeKeywords = false →
        normalizeCitationStatus (some st) = CitationStatus.broken) := by
  refine ⟨by decide, by decide, by decide, by decide, fun st => ⟨?_, ?_, ?_, ?_, ?_, ?_⟩⟩
  · exact normalizeClaim_pos st
  · exact normalizeClaim_neg st
  · exact normalizeClaim_default st
  · exact normalizeCitation_pos st
  · exact normalizeCitation_fake st
  · exact normalizeCitation_default st

/-- Witness for C2: the six priority cases evaluated at concrete inputs. -/
theorem claim_C2_witness :
    normalizeClaimStatus (some "Accurate") = ClaimStatus.verified ∧
    normalizeClaimStatus (some "WRONG") = ClaimStatus.false_ ∧
    normalizeClaimStatus (some "bogus") = ClaimStatus.questionable ∧
    normalizeCitationStatus (some "URL exists") = CitationStatus.valid ∧
    normalizeCitationStatus (some "fabricated") = CitationStatus.fake ∧
    normalizeCitationStatus (some "dead link") = CitationStatus.broken :=
  ⟨(claim_C2_normalizers_total_prioritized.2.2.2.2 "Accurate").1 (by decide),
   (claim_C2_normalizers_total_prioritized.2.2.2.2 "WRONG").2.1 (by decide) (by decide),
   (claim_C2_normalizers_total_prioritized.2.2.2.2 "bogus").2.2.1 (by decide) (by decide),
   (claim_C2_normalizers_total_prioritized.2.2.2.2 "URL exists").2.2.2.1 (by decide),
   (claim_C2_normalizers_total_prioritized.2.2.2.2 "fabricated").2.2.2.2.1 (by decide) (by decide),
   (claim_C2_normalizers_total_prioritized.2.2.2.2 "dead link").2.2.2.2.2 (by decide) (by decide)⟩

/-! ## Claim C10 -/

/-- C10: because positive keywords are checked first by plain substring
containment, any status string whose lowercased form contains a
positive keyword is mapped to verified / valid, even when the keyword
occurs inside a negating word and negative keywords are also present;
in particular "untrue" normalizes to verified and "invalid" to valid. -/
theorem claim_C10_substring_precedence :
    (∀ st : String, anyKeyword (strToLower st) claimPositiveKeywords = true →
        normalizeClaimStatus (some st) = ClaimStatus.verified) ∧
    (∀ st : String, anyKeyword (strToLower st) citationValidKeywords = true →
        normalizeCitationStatus (some st) = CitationStatus.valid) ∧
    normalizeClaimStatus (some "untrue") = ClaimStatus.verified ∧
    normalizeCitationStatus (some "invalid") = CitationStatus.valid ∧
    normalizeClaimStatus (some "fake but untrue") = ClaimStatus.verified :=
  ⟨normalizeClaim_pos, normalizeCitation_pos,
   normalizeClaim_pos "untrue" (by decide),
   normalizeCitation_pos "invalid" (by decide),
   normalizeClaim_pos "fake but untrue" (by decide)⟩

/-- Witness for C10: the universal parts applied at concrete inputs. -/
theorem claim_C10_witness :
    normalizeClaimStatus (some "UNTRUE!") = ClaimStatus.verified ∧
    normalizeCitationStatus (some "Invalid URL") = CitationStatus.valid :=
  ⟨claim_C10_substring_precedence.1 "UNTRUE!" (by decide),
   claim_C10_substring_precedence.2.1 "Invalid URL" (by decide)⟩

/-! ## Claim C1 -/

/-- Core of the fallback branch: with a null backendResult the merge
produces the zero-trust ai-only-fallback result and surfaces the AI
fields with their fallback defaults. -/
theorem mergeResults_fallback (bo : BackendOutcome) (ai : Option AiResult)
    (hnone : backendResultOf bo = none) :
    (mergeResults bo ai).trustScore = 0 ∧
    (mergeResults bo ai).claims = [] ∧
    (mergeResults bo ai).citations = [] ∧
    (mergeResults bo ai).source = "ai-only-fallback" ∧
    (mergeResults bo ai).error.isSome = true ∧
    (mergeResults bo ai).hallucinationRisk = jsOrS (ai.bind AiResult.hallucinationRisk) "Unknown" ∧
    (ai.bind AiResult.hallucinationRisk = none →
      (mergeResults bo ai).hallucinationRisk = "Unknown") ∧
    (∀ a r, ai = some a → a.hallucinationRisk = some r → r ≠ "" →
      (mergeResults bo ai).hallucinationRisk = r) ∧
    (∀ a s, ai = some a → a.analysisSummary = some s → s ≠ "" →
      (mergeResults bo ai).analysisSummary = s) := by
  unfold mergeResults
  rw [hnone]
  refine ⟨rfl, rfl, rfl, rfl, rfl, rfl, ?_, ?_, ?_⟩
  · intro hn
    show jsOrS (ai.bind AiResult.hallucinationRisk) "Unknown" = "Unknown"
    rw [hn]
    rfl
  · rintro a r rfl hr hne
    show jsOrS (a.hallucinationRisk) "Unknown" = r
    rw [hr]
    simp [jsOrS, hne]
  · rintro a s rfl hs hne
    show jsOrS (a.analysisSummary) "Unable to verify without backend" = s
    rw [hs]
    simp [jsOrS, hne]

/-- C1: whenever the factual backend call fails (network error, non-2xx
response, or unparsable body), the merged result has trustScore 0,
empty claims and citations, and source "ai-only-fallback", regardless
of the AI-insight outcome; the available AI risk/summary fields are
surfaced, defaulting hallucinationRisk to "Unknown". -/
theorem claim_C1_merge_fallback (bo : BackendOutcome) (ai : Option AiResult)
    (h : (∃ s, bo = BackendOutcome.httpError s) ∨
         (∃ m, bo = BackendOutcome.fetchError m) ∨
         (∃ m, bo = BackendOutcome.bodyParseError m)) :
    (mergeResults bo ai).trustScore = 0 ∧
    (mergeResults bo ai).claims = [] ∧
    (mergeResults bo ai).citations = [] ∧
    (mergeResults bo ai).source = "ai-only-fallback" ∧
    (mergeResults bo ai).error.isSome = true ∧
    (mergeResults bo ai).hallucinationRisk = jsOrS (ai.bind AiResult.hallucinationRisk) "Unknown" ∧
    (ai.bind AiResult.hallucinationRisk = none →
      (mergeResults bo ai).hallucinationRisk = "Unknown") ∧
    (∀ a r, ai = some a → a.hallucinationRisk = some r → r ≠ "" →
      (mergeResults bo ai).hallucinationRisk = r) ∧
    (∀ a s, ai = some a → a.analysisSummary = some s → s ≠ "" →
      (mergeResults bo ai).analysisSummary = s) := by
  have hnone : backendResultOf bo = none := by
    obtain ⟨s, rfl⟩ | ⟨m, rfl⟩ | ⟨m, rfl⟩ := h <;> rfl
  exact mergeResults_fallback bo ai hnone

/-- Witness for C1: a network-failed backend together with a successful
AI insight produces the fallback result carrying the AI risk. -/
theorem claim_C1_witness :
    (mergeResults (BackendOutcome.fetchError "boom")
        (some ⟨some "High", none, some "sum", none⟩)).trustScore = 0 ∧
    (mergeResults (BackendOutcome.fetchError "boom")
        (some ⟨some "High", none, some "sum", none⟩)).claims = [] ∧
    (mergeResults (BackendOutcome.fetchError "boom")
        (some ⟨some "High", none, some "sum", none⟩)).source = "ai-only-fallback" ∧
    (mergeResults (BackendOutcome.fetchError "boom")
        (some ⟨some "High", none, some "sum", none⟩)).hallucinationRisk = "High" := by
  have h := claim_C1_merge_fallback (BackendOutcome.fetchError "boom")
    (some ⟨some "High", none, some "sum", none⟩) (Or.inr (Or.inl ⟨"boom", rfl⟩))
  exact ⟨h.1, h.2.1, h.2.2.2.1, h.2.2.2.2.2.2.2.1 _ "High" rfl rfl (by decide)⟩

/-! ## Claim C5 -/

/-- C5: re-verification reconciles asymmetrically.  broken + reachable
becomes valid with the accessibility reason; valid + unreachable
becomes broken with the HTTP-code reason (or the no-code reason when
the probe status is 0); every other combination — fake (even when
reachable), valid + reachable, broken + unreachable — leaves status
and reason unchanged. -/
theorem claim_C5_reconcile_asymmetric (c : Citation) (r : ProbeResult) :
    (c.status = CitationStatus.broken → r.exists_ = true →
      (reconcileCitation c r).status = CitationStatus.valid ∧
      (reconcileCitation c r).reason =
        "URL is accessible. Page title: \"" ++ jsOrS r.title "Unknown" ++ "\"") ∧
    (c.status = CitationStatus.valid → r.exists_ = false →
      (reconcileCitation c r).status = CitationStatus.broken ∧
      (r.status ≠ 0 →
        (reconcileCitation c r).reason = "URL returned HTTP " ++ toString r.status) ∧
      (r.status = 0 →
        (reconcileCitation c r).reason = "URL is not accessible or does not exist")) ∧
    (c.status = CitationStatus.fake →
      (reconcileCitation c r).status = c.status ∧
      (reconcileCitation c r).reason = c.reason) ∧
    (c.status = CitationStatus.valid → r.exists_ = true →
      (reconcileCitation c r).status = c.status ∧
      (reconcileCitation c r).reason = c.reason) ∧
    (c.status = CitationStatus.broken → r.exists_ = false →
      (reconcileCitation c r).status = c.status ∧
      (reconcileCitation c r).reason = c.reason) := by
  refine ⟨?_, ?_, ?_, ?_, ?_⟩
  · intro hs hx
    constructor <;> simp [reconcileCitation, reconcileStatusReason, hs, hx]
  · intro hs hx
    refine ⟨by simp [reconcileCitation, reconcileStatusReason, hs, hx], ?_, ?_⟩
    · intro hn
      simp [reconcileCitation, reconcileStatusReason, hs, hx, hn]
    · intro hz
      simp [reconcileCitation, reconcileStatusReason, hs, hx, hz]
  · intro hs
    cases hx : r.exists_ <;>
      constructor <;> simp [reconcileCitation, reconcileStatusReason, hs, hx]
  · intro hs hx
    constructor <;> simp [reconcileCitation, reconcileStatusReason, hs, hx]
  · intro hs hx
    constructor <;> simp [reconcileCitation, reconcileStatusReason, hs, hx]

/-- Witness for C5: a broken citation with a reachable probe flips to
valid with the title reason; a fake one is untouched by the same probe. -/
theorem claim_C5_witness :
    (reconcileCitation ⟨"s", "http://x", CitationStatus.broken, "old"⟩
        ⟨true, 200, some "T", none⟩).status = CitationStatus.valid ∧
    (reconcileCitation ⟨"s", "http://x", CitationStatus.broken, "old"⟩
        ⟨true, 200, some "T", none⟩).reason = "URL is accessible. Page title: \"T\"" ∧
    (reconcileCitation ⟨"s", "http://x", CitationStatus.fake, "old"⟩
        ⟨true, 200, some "T", none⟩).status = CitationStatus.fake ∧
    (reconcileCitation ⟨"s", "http://x", CitationStatus.valid, "old"⟩
        ⟨false, 404, none, none⟩).reason = "URL returned HTTP 404" := by
  have h1 := (claim_C5_reconcile_asymmetric ⟨"s", "http://x", CitationStatus.broken, "old"⟩
    ⟨true, 200, some "T", none⟩).1 rfl rfl
  have h2 := (claim_C5_reconcile_asymmetric ⟨"s", "http://x", CitationStatus.fake, "old"⟩
    ⟨true, 200, some "T", none⟩).2.2.1 rfl
  have h3 := (claim_C5_reconcile_asymmetric ⟨"s", "http://x", CitationStatus.valid, "old"⟩
    ⟨false, 404, none, none⟩).2.1 rfl rfl
  exact ⟨h1.1, by rw [h1.2]; rfl, h2.1, by rw [h3.2.1 (by decide)]; rfl⟩

/-! ## Claim C6 -/

/-- C6: the URL probe is total and never propagates an exception.  A
falsy url, the sentinel "unknown", or a url not starting with "http"
yields exists=false, status=0 independently of the network (no request
is issued); a caught network exception yields the same; a non-2xx
response on a probed url yields exists=false with the response code. -/
theorem claim_C6_checkUrl_safe :
    (∀ url net, (url = "" ∨ url = "unknown" ∨ strStartsWith url "http" = false) →
      checkUrl url net = { exists_ := false, status := 0, title := none, preview := none }) ∧
    (∀ url message, checkUrl url (NetOutcome.netError message) =
      { exists_ := false, status := 0, title := none, preview := none }) ∧
    (∀ url status body, url ≠ "" → url ≠ "unknown" → strStartsWith url "http" = true →
      ¬(200 ≤ status ∧ status ≤ 299) →
      checkUrl url (NetOutcome.response status body) =
        { exists_ := false, status := status, title := none, preview := none }) := by
  refine ⟨?_, ?_, ?_⟩
  · intro url net h
    rcases h with rfl | rfl | hs
    · rfl
    · rfl
    · simp [checkUrl, hs]
  · intro url message
    unfold checkUrl
    split
    · rfl
    · rfl
  · intro url status body h1 h2 h3 hno
    simp [checkUrl, h1, h2, h3, hno]

/-- Witness for C6: the three failure shapes at concrete inputs. -/
theorem claim_C6_witness :
    checkUrl "unknown" (NetOutcome.response 200 "<p>hi</p>") =
      { exists_ := false, status := 0, title := none, preview := none } ∧
    checkUrl "http://x" (NetOutcome.netError "timeout") =
      { exists_ := false, status := 0, title := none, preview := none } ∧
    checkUrl "http://x" (NetOutcome.response 404 "gone") =
      { exists_ := false, status := 404, title := none, preview := none } :=
  ⟨claim_C6_checkUrl_safe.1 "unknown" (NetOutcome.response 200 "<p>hi</p>") (Or.inr (Or.inl rfl)),
   claim_C6_checkUrl_safe.2.1 "http://x" "timeout",
   claim_C6_checkUrl_safe.2.2 "http://x" 404 "gone" (by decide) (by decide) (by decide) (by decide)⟩

/-! ## Claim C7 -/

/-- Positional pairing of a list with its image under a map. -/
theorem zip_map_snd {α β : Type} (f : α → β) :
    ∀ (l : List α) (p : α × β), p ∈ l.zip (l.map f) → p.2 = f p.1 := by
  intro l
  induction l with
  | nil => intro p hp; simp at hp
  | cons a t ih =>
    intro p hp
    simp only [List.map_cons, List.zip_cons_cons, List.mem_cons] at hp
    rcases hp with rfl | hp
    · rfl
    · exact ih p hp

/-- C7: the re-verifier returns a list of the same length in the same
order in which every element is marked verified and keeps every field
of the original citation other than status and reason (in particular
source and url). -/
theorem claim_C7_frame (citations : List Citation) (net : String → NetOutcome) :
    (verifyCitations citations net).length = citations.length ∧
    ∀ p ∈ citations.zip (verifyCitations citations net),
      p.2.verified = true ∧ p.2.source = p.1.source ∧ p.2.url = p.1.url := by
  constructor
  · simp [verifyCitations]
  · intro p hp
    have h := zip_map_snd _ citations p hp
    rw [h]
    exact ⟨rfl, rfl, rfl⟩

/-- Witness for C7 at a one-element list whose probe is a network
failure. -/
theorem claim_C7_witness :
    (verifyCitations [⟨"s", "u", CitationStatus.valid, "r"⟩]
        (fun _ => NetOutcome.netError "down")).length = 1 ∧
    (⟨"s", "u", CitationStatus.broken, "URL is not accessible or does not exist",
      true, 0, none, none⟩ : VerifiedCitation).verified = true ∧
    (⟨"s", "u", CitationStatus.broken, "URL is not accessible or does not exist",
      true, 0, none, none⟩ : VerifiedCitation).source = "s" := by
  have h := claim_C7_frame [⟨"s", "u", CitationStatus.valid, "r"⟩]
    (fun _ => NetOutcome.netError "down")
  have hm := h.2
    ((⟨"s", "u", CitationStatus.valid, "r"⟩ : Citation),
     (⟨"s", "u", CitationStatus.broken, "URL is not accessible or does not exist",
       true, 0, none, none⟩ : VerifiedCitation)) (by decide)
  exact ⟨h.1, hm.1, hm.2.1⟩

/-! ## Claim C8 -/

/-- Reconciling a second time with the same probe result leaves the
status of the first reconciliation unchanged. -/
theorem reconcile_status_idem (c : Citation) (r : ProbeResult) :
    (reconcileCitation ((reconcileCitation c r).toCitation) r).status =
      (reconcileCitation c r).status := by
  cases hx : r.exists_ <;> cases hs : c.status <;>
    simp [reconcileCitation, VerifiedCitation.toCitation, reconcileStatusReason, hx, hs]

/-- C8: re-verification is idempotent on statuses: feeding the output
of one re-verification back in, with every URL probing the same way,
yields the same status on every citation. -/
theorem claim_C8_idempotent (citations : List Citation) (net : String → NetOutcome) :
    (verifyCitations ((verifyCitations citations net).map VerifiedCitation.toCitation) net).map
        VerifiedCitation.status =
      (verifyCitations citations net).map VerifiedCitation.status := by
  induction citations with
  | nil => rfl
  | cons c t ih =>
    simp only [verifyCitations, List.map_cons] at ih ⊢
    congr 1
    exact reconcile_status_idem c (checkUrl c.url (net c.url))

/-! ## Claim C9 -/

/-- C9: when the AI gateway's response content is not valid JSON (after
stripping an optional code fence), the parse failure is caught and the
operation returns the default payload instead of failing the request. -/
theorem claim_C9_parse_fallback (content : String) (JSONparse : String → Option AiDetection)
    (h : JSONparse (extractJsonStr content) = none) :
    parseDetectAi content JSONparse =
      { isAiGenerated := false
        confidence := 50
        indicators := []
        analysis := "Unable to determine AI authorship"
        error := some "Failed to parse AI analysis" } := by
  unfold parseDetectAi
  rw [h]

/-- Witness for C9: unparsable content (fenced or not) yields the
default payload. -/
theorem claim_C9_witness :
    parseDetectAi "surely not json" (fun _ => none) =
      { isAiGenerated := false
        confidence := 50
        indicators := []
        analysis := "Unable to determine AI authorship"
        error := some "Failed to parse AI analysis" } :=
  claim_C9_parse_fallback "surely not json" (fun _ => none) rfl

/-! ## Claim C3 (corrected) -/

/-- Counterexample to C3 as stated: the backend reports a claim whose
status normalizes to verified, the AI insight carries a matching
source suggestion, and the merged claim nevertheless receives a
non-empty suggestedSources list — population does not consult the
claim's status. -/
theorem claim_C3_counterexample :
    ∃ mc ∈ (mergeResults
        (BackendOutcome.success
          ⟨some 82, none,
           some [⟨some "x", none, some "true", none, none, none, none, none, none⟩],
           some []⟩)
        (some ⟨none, none, none, some [⟨some "x", some ["http://a"]⟩]⟩)).claims,
      mc.status = ClaimStatus.verified ∧ mc.suggestedSources ≠ [] := by
    decide

/-- C3 amended: a merged claim's suggestedSources is non-empty only
when a matching AI-insight source-suggestion entry exists or the
backend itself supplied a non-empty suggestedSources list; the claim's
status plays no role. -/
theorem claim_C3_amended (br : BackendResult) (ai : Option AiResult) (mc : MergedClaim)
    (hmem : mc ∈ (mergeResults (BackendOutcome.success br) ai).claims)
    (hne : mc.suggestedSources ≠ []) :
    ∃ rc ∈ br.claims.getD [], mc = mergeClaim ai rc ∧
      ((∃ s, aiFindSuggestion ai rc = some s) ∨
       ∃ l, rc.suggestedSources = some l ∧ l ≠ []) := by
  have hcl : (mergeResults (BackendOutcome.success br) ai).claims =
      (br.claims.getD []).map (mergeClaim ai) := rfl
  rw [hcl] at hmem
  rcases List.mem_map.mp hmem with ⟨rc, hrc, rfl⟩
  refine ⟨rc, hrc, rfl, ?_⟩
  by_cases hfind : ∃ s, aiFindSuggestion ai rc = some s
  · exact Or.inl hfind
  · right
    have hnone : aiFindSuggestion ai rc = none := by
      cases h : aiFindSuggestion ai rc with
      | none => rfl
      | some s => exact absurd ⟨s, h⟩ hfind
    have hsrc : (mergeClaim ai rc).suggestedSources = rc.suggestedSources.getD [] := by
      simp [mergeClaim, hnone]
    rw [hsrc] at hne
    cases hs : rc.suggestedSources with
    | none => rw [hs] at hne; simp at hne
    | some l =>
      refine ⟨l, rfl, ?_⟩
      rw [hs] at hne
      simpa using hne

/-- Witness for C3 (amended): a verified backend claim with a matching
AI suggestion traces its non-empty sources to that AI entry. -/
theorem claim_C3_witness :
    ∃ rc ∈ [(⟨some "x", none, some "true", none, none, none, none, none, none⟩ : RawClaim)],
      (⟨"x", ClaimStatus.verified, "", ["http://a"]⟩ : MergedClaim) =
        mergeClaim (some ⟨none, none, none, some [⟨some "x", some ["http://a"]⟩]⟩) rc ∧
      ((∃ s, aiFindSuggestion
          (some ⟨none, none, none, some [⟨some "x", some ["http://a"]⟩]⟩) rc = some s) ∨
       ∃ l, rc.suggestedSources = some l ∧ l ≠ []) :=
  claim_C3_amended
    ⟨some 82, none, some [⟨some "x", none, some "true", none, none, none, none, none, none⟩], some []⟩
    (some ⟨none, none, none, some [⟨some "x", some ["http://a"]⟩]⟩)
    ⟨"x", ClaimStatus.verified, "", ["http://a"]⟩
    (by decide) (by decide)

/-! ## Claim C4 (corrected) -/

/-- Follows the words of claim C4: the stated bidirectional
case-insensitive 30-character-prefix substring test between a claim's
text and a suggestion entry's claimText, with no further condition. -/
def statedMatchTest (claimText entryText : String) : Bool :=
  strIncludes (strToLower claimText) (strTake (strToLower entryText) 30) ||
  strIncludes (strToLower entryText) (strTake (strToLower claimText) 30)

/-- Follows the words of the amended claim C4: entries are scanned in
list order; an entry matches when both the claim's raw text and the
entry's claimText are non-empty and the stated prefix test holds; the
first matching entry wins when it carries a suggestedSources field,
otherwise (as when no entry matches) the backend-provided sources are
used. -/
def specSelectSources (claimText : String) : List SourceSuggestion → List String → List String
  | [], backendSources => backendSources
  | s :: rest, backendSources =>
    if claimText != "" &&
        (s.claimText.getD "" != "" && statedMatchTest claimText (s.claimText.getD "")) then
      match s.suggestedSources with
      | some l => l
      | none => backendSources
    else specSelectSources claimText rest backendSources

/-- The code's find predicate coincides with the guarded stated test. -/
theorem suggestionMatches_eq (c : RawClaim) (s : SourceSuggestion) :
    suggestionMatches c s =
      (c.text.getD "" != "" &&
        (s.claimText.getD "" != "" && statedMatchTest (c.text.getD "") (s.claimText.getD ""))) := by
  rcases hct : c.text with _ | t <;> rcases hst : s.claimText with _ | ct <;>
    simp [suggestionMatches, statedMatchTest, hct, hst, Bool.and_assoc]

/-- The find?-based selection of the source equals the recursive
first-match-wins selection. -/
theorem findSelect_eq (c : RawClaim) (entries : List SourceSuggestion) (backend : List String) :
    (match (entries.find? (suggestionMatches c)).bind SourceSuggestion.suggestedSources with
     | some l => l
     | none => backend) =
      specSelectSources (c.text.getD "") entries backend := by
  induction entries with
  | nil => rfl
  | cons s rest ih =>
    cases hm : suggestionMatches c s with
    | true =>
      rw [List.find?_cons_of_pos _ hm]
      have hg : (c.text.getD "" != "" &&
          (s.claimText.getD "" != "" && statedMatchTest (c.text.getD "") (s.claimText.getD ""))) = true :=
        (suggestionMatches_eq c s).symm.trans hm
      simp only [specSelectSources, hg, if_true, Option.some_bind]
    | false =>
      rw [List.find?_cons_of_neg _ (by simp [hm])]
      have hg : (c.text.getD "" != "" &&
          (s.claimText.getD "" != "" && statedMatchTest (c.text.getD "") (s.claimText.getD ""))) = false :=
        (suggestionMatches_eq c s).symm.trans hm
      simp only [specSelectSources, hg, Bool.false_eq_true, if_false]
      exact ih

/-- Counterexample to C4 as stated: an entry with empty claimText
passes the stated substring test against the claim text "x" (the empty
prefix occurs in every string) and is the only — hence first — entry,
yet the merged claim does not take its sources: the code's truthiness
guard skips it and the no-match fallback (the empty list) is used. -/
theorem claim_C4_counterexample :
    statedMatchTest "x" "" = true ∧
    (mergeClaim (some ⟨none, none, none, some [⟨some "", some ["http://a"]⟩]⟩)
        ⟨some "x", none, some "true", none, none, none, none, none, none⟩).suggestedSources = [] ∧
    (["http://a"] : List String) ≠ [] := by
  decide

/-- C4 amended: the AI source-suggestion match is decided in list order
by the bidirectional case-insensitive 30-character-prefix substring
test, guarded by both texts being non-empty; the first matching entry
wins when it carries a suggestedSources field; if it lacks the field,
or no entry matches, the backend-provided suggestedSources (else the
empty list) are used. -/
theorem claim_C4_amended (ai : Option AiResult) (c : RawClaim) :
    (mergeClaim ai c).suggestedSources =
      specSelectSources (c.text.getD "") ((ai.bind AiResult.sourceSuggestions).getD [])
        (c.suggestedSources.getD []) :=
  findSelect_eq c ((ai.bind AiResult.sourceSuggestions).getD []) (c.suggestedSources.getD [])
